import Mathlib

/-!
Verification of the chat-orchestration core of pydantic-structured-output-demo.

A shallow embedding, in Lean 4, of the conversation store, the inference-gateway
client payload construction, the chat orchestrator and the legacy echo route of
the repository, together with theorems settling the specification claims.

Modelling conventions:
* Python `str.strip()` is `pyStrip` (ASCII whitespace as Python defines it for
  the characters occurring here).
* Python floats are modelled as `Rat`: the code never performs float
  arithmetic on them, it only stores, compares against constant bounds, and
  forwards them, and every float is an exact rational.
* Python `datetime.utcnow()` instants are abstract `Nat` parameters threaded
  into the functions that read the clock.
* JSON values are `JValue`; dynamic (duck-typed) Python operations on decoded
  JSON (`.get`, `in`, indexing, iteration) are modelled by `Except PyErr _`
  functions that return the Python exception the operation would raise.
* Mutation of the process-global conversation dictionary is modelled by
  explicit state passing: an operation takes the store and returns the store.
-/

set_option autoImplicit false

namespace PydanticDemo

/-- Characters treated as whitespace by Python's `str.strip()`
(for the ASCII range used in this code base). -/
def pyIsSpace (c : Char) : Bool :=
  c == ' ' || c == '\t' || c == '\n' || c == '\r' || c == '\x0b' || c == '\x0c'

/-- The `str.strip()` on a character list: drop leading and trailing whitespace. -/
def stripChars (l : List Char) : List Char :=
  ((l.dropWhile pyIsSpace).reverse.dropWhile pyIsSpace).reverse

/-- Python `s.strip()`. -/
def pyStrip (s : String) : String :=
  String.mk (stripChars s.data)

/-- Python `x or d` for an optional string: `None` and `""` are falsy. -/
def pyOrStr (x : Option String) (d : String) : String :=
  match x with
  | some s => if s = "" then d else s
  | none => d

/-- Python `x or d` for an optional float: `None` and `0.0` are falsy. -/
def pyOrRat (x : Option Rat) (d : Rat) : Rat :=
  match x with
  | some q => if q = 0 then d else q
  | none => d

/-- Python truthiness of an `Optional[int]`: `None` and `0` are falsy. -/
def pyTruthyOptInt (x : Option Int) : Bool :=
  match x with
  | some n => n != 0
  | none => false

/-- Python truthiness of an `Optional[str]`: `None` and `""` are falsy. -/
def pyTruthyOptStr (x : Option String) : Bool :=
  match x with
  | some s => s != ""
  | none => false

/-- Python exceptions that the modelled code can raise. -/
inductive PyErr where
  | validationError
  | typeError
  | attributeError
  | keyError
  deriving DecidableEq, Repr

/-- The `MessageRole` (`webapp/llm/schemas.py`): enumeration of message roles. -/
inductive MessageRole where
  | user
  | assistant
  | system
  deriving DecidableEq, Repr

/-- The `.value` of a role (the string of the Python `str` enum). -/
def MessageRole.value : MessageRole → String
  | .user => "user"
  | .assistant => "assistant"
  | .system => "system"

/-- The `LLMMessage` (`webapp/llm/schemas.py`): a validated chat message.
`timestamp` is the `datetime.utcnow()` default, modelled as a `Nat`. -/
structure LLMMessage where
  role : MessageRole
  content : String
  timestamp : Nat
  deriving DecidableEq, Repr

/-- Pydantic construction of `LLMMessage`: the `min_length=1` field constraint
runs first, then the `validate_content` field validator, which rejects
whitespace-only content and stores the stripped form. -/
def mkLLMMessage (role : MessageRole) (content : String) (now : Nat) :
    Except PyErr LLMMessage :=
  if content.length < 1 then .error .validationError
  else if pyStrip content = "" then .error .validationError
  else .ok { role := role, content := pyStrip content, timestamp := now }

/-- The `ChatRequest` (`webapp/llm/schemas.py`): the enhanced chat request.
Fields hold post-validation values. -/
structure ChatRequest where
  message : String
  conversation_id : Option String
  system_prompt : Option String
  temperature : Option Rat
  max_tokens : Option Int
  deriving DecidableEq, Repr

/-- Pydantic construction of `ChatRequest`: `message` has `min_length=1` and a
validator that rejects whitespace-only text and stores the stripped form;
`temperature` (when not `None`) must lie in `[0, 2]`; `max_tokens` (when not
`None`) must lie in `[1, 4096]`. -/
def mkChatRequest (message : String) (conversation_id : Option String)
    (system_prompt : Option String) (temperature : Option Rat)
    (max_tokens : Option Int) : Except PyErr ChatRequest :=
  if message.length < 1 then .error .validationError
  else if pyStrip message = "" then .error .validationError
  else if (match temperature with
           | some t => ¬ (0 ≤ t ∧ t ≤ 2)
           | none => false : Bool) then .error .validationError
  else if (match max_tokens with
           | some m => ¬ (1 ≤ m ∧ m ≤ 4096)
           | none => false : Bool) then .error .validationError
  else .ok { message := pyStrip message, conversation_id := conversation_id,
             system_prompt := system_prompt, temperature := temperature,
             max_tokens := max_tokens }

/-- A `ChatRequest` value is valid when pydantic construction from its own
field values succeeds and reproduces it (the post-validation invariant). -/
def ChatRequest.Valid (r : ChatRequest) : Prop :=
  mkChatRequest r.message r.conversation_id r.system_prompt r.temperature
    r.max_tokens = .ok r

instance {ε α : Type} [DecidableEq ε] [DecidableEq α] : DecidableEq (Except ε α) := fun a b =>
  match a, b with
  | .ok x, .ok y => if h : x = y then .isTrue (by rw [h]) else .isFalse (by simp [h])
  | .error e, .error f => if h : e = f then .isTrue (by rw [h]) else .isFalse (by simp [h])
  | .ok _, .error _ => .isFalse (by simp)
  | .error _, .ok _ => .isFalse (by simp)

instance (r : ChatRequest) : Decidable r.Valid :=
  inferInstanceAs (Decidable (_ = _))

/-- A JSON value, as produced by `json.loads` / consumed by request payloads.
Numbers are modelled as rationals (every JSON number is one). -/
inductive JValue where
  | null
  | bool (b : Bool)
  | num (q : Rat)
  | str (s : String)
  | arr (xs : List JValue)
  | obj (fields : List (String × JValue))
  deriving Repr

/-- First value bound to key `k` in a decoded JSON object (Python dicts from
`json.loads` have unique keys; lookup takes the first binding). -/
def jLookup (fields : List (String × JValue)) (k : String) : Option JValue :=
  (fields.find? (fun f => f.1 = k)).map (fun f => f.2)

/-- The `ConversationContext` (`webapp/llm/schemas.py`): per-conversation state.
`created_at` / `updated_at` are `datetime.utcnow()` instants (`Nat`). -/
structure ConversationContext where
  conversation_id : String
  messages : List LLMMessage
  created_at : Nat
  updated_at : Nat
  metadata : List (String × JValue)

/-- The `ConversationContext.add_message`: append and advance `updated_at`. -/
def ConversationContext.add_message (c : ConversationContext) (m : LLMMessage)
    (now : Nat) : ConversationContext :=
  { c with messages := c.messages ++ [m], updated_at := now }

/-- The `ConversationContext.to_llm_format`: the plain `{"role", "content"}` pair
list, in stored (chronological) order. -/
def ConversationContext.to_llm_format (c : ConversationContext) :
    List (String × String) :=
  c.messages.map (fun m => (m.role.value, m.content))

/-- The `ConversationManager`'s `_conversations` dictionary, modelled as a
partial map from conversation id to context. -/
def ConvStore : Type := String → Option ConversationContext

/-- The empty store (a fresh `ConversationManager`). -/
def ConvStore.empty : ConvStore := fun _ => none

/-- The `ConversationManager.get_or_create_conversation`: return the existing
context, or insert and return a fresh empty one. The returned store reflects
the possible insertion. -/
def get_or_create_conversation (store : ConvStore) (conversation_id : String)
    (now : Nat) : ConversationContext × ConvStore :=
  match store conversation_id with
  | some conv => (conv, store)
  | none =>
    let conv : ConversationContext :=
      { conversation_id := conversation_id, messages := [], created_at := now,
        updated_at := now, metadata := [] }
    (conv, fun x => if x = conversation_id then some conv else store x)

/-- The `ConversationManager.add_message_to_conversation`: get-or-create the
conversation, construct the `LLMMessage` (which can fail validation), and
append it. The store component carries the side effects that happened before
any exception (the get-or-create insertion persists even when message
construction fails). The two `utcnow()` readings of the call (message
timestamp, `updated_at`) are modelled by the single instant `now`. -/
def add_message_to_conversation (store : ConvStore) (conversation_id : String)
    (role : MessageRole) (content : String) (now : Nat) :
    Except PyErr Unit × ConvStore :=
  let r := get_or_create_conversation store conversation_id now
  match mkLLMMessage role content now with
  | .error e => (.error e, r.2)
  | .ok msg =>
    let conv := r.1.add_message msg now
    (.ok (), fun x => if x = conversation_id then some conv else r.2 x)

/-- Python slice `xs[a:]` with an arbitrary (possibly negative) `a`. -/
def pySliceFrom {α : Type} (xs : List α) (a : Int) : List α :=
  xs.drop (if a < 0 then ((xs.length : Int) + a).toNat else a.toNat)

/-- The `ConversationManager.get_conversation_history`: `[]` for an unknown id
(no insertion — the store is not touched), otherwise
`conversation.to_llm_format()[-limit:]`. -/
def get_conversation_history (store : ConvStore) (conversation_id : String)
    (limit : Int) : List (String × String) :=
  match store conversation_id with
  | none => []
  | some conv => pySliceFrom conv.to_llm_format (-limit)

/-- The `ConversationManager.clear_conversation`: delete the entry if present. -/
def clear_conversation (store : ConvStore) (conversation_id : String) :
    ConvStore :=
  fun x => if x = conversation_id then none else store x

/-- The `LLMConfig` (`webapp/llm/client.py`): client configuration. -/
structure LLMConfig where
  base_url : String
  model_name : String
  timeout : Rat
  max_tokens : Option Int
  temperature : Rat
  deriving DecidableEq, Repr

/-- One keyword argument slot of a Python `**kwargs` dict: `none` = key
absent, `some v` = key present with value `v` (which may itself be `None`). -/
abbrev Kw (α : Type) : Type := Option α

/-- The JSON value for an `Optional[float]` Python value. -/
def jOfOptRat : Option Rat → JValue
  | some q => .num q
  | none => .null

/-- The request payload of `LLMClient.chat` (`POST /api/chat`). `options` is
the literal key/value list the code builds. -/
structure ChatPayload where
  model : String
  messages : List (String × String)
  stream : Bool
  options : List (String × JValue)
  deriving Repr

/-- The request payload of `LLMClient.generate` (`POST /api/generate`).
`system` is `none` when the `"system"` key is not set. -/
structure GenPayload where
  model : String
  prompt : String
  stream : Bool
  options : List (String × JValue)
  system : Option String
  deriving Repr

/-- The `LLMClient._build_chat_payload`. `kw_temperature` is the `temperature`
slot of `**kwargs` (`kwargs.get('temperature', config.temperature)` falls back
to the config value only when the key is absent). The `max_tokens` slot of
`**kwargs` is accepted but never read — the builder attaches `num_predict`
from `config.max_tokens` alone, and only when that is truthy. -/
def build_chat_payload (config : LLMConfig) (messages : List (String × String))
    (kw_temperature : Kw (Option Rat)) (kw_max_tokens : Kw (Option Int)) :
    ChatPayload :=
  let _ := kw_max_tokens
  let tempVal : Option Rat :=
    match kw_temperature with
    | some v => v
    | none => some config.temperature
  let options := [("temperature", jOfOptRat tempVal)]
  let options :=
    if pyTruthyOptInt config.max_tokens then
      options ++ [("num_predict", .num (((config.max_tokens).getD 0 : Int) : Rat))]
    else options
  { model := config.model_name, messages := messages, stream := false,
    options := options }

/-- The `LLMClient._build_payload` (the `generate` path); same options logic,
plus the optional `system` key for a truthy system prompt. -/
def build_payload (config : LLMConfig) (prompt : String)
    (system_prompt : Option String) (kw_temperature : Kw (Option Rat)) :
    GenPayload :=
  let tempVal : Option Rat :=
    match kw_temperature with
    | some v => v
    | none => some config.temperature
  let options := [("temperature", jOfOptRat tempVal)]
  let options :=
    if pyTruthyOptInt config.max_tokens then
      options ++ [("num_predict", .num (((config.max_tokens).getD 0 : Int) : Rat))]
    else options
  { model := config.model_name, prompt := prompt, stream := false,
    options := options,
    system := if pyTruthyOptStr system_prompt then system_prompt else none }

/-- Python `k in d` on a decoded JSON value: key membership for dicts,
element membership for lists (`==` against each element), substring test for
strings, `TypeError` otherwise. -/
def pyContains (k : String) (d : JValue) : Except PyErr Bool :=
  match d with
  | .obj fs => .ok (fs.any (fun f => f.1 = k))
  | .arr xs => .ok (xs.any (fun x => match x with | .str s => s = k | _ => false))
  | .str s => .ok (k = "" ∨ (s.splitOn k).length > 1)
  | _ => .error .typeError

/-- Python `d[k]` with a string key on a decoded JSON value: dict indexing
(`KeyError` when missing), `TypeError` for every other type. -/
def pyGetItem (d : JValue) (k : String) : Except PyErr JValue :=
  match d with
  | .obj fs =>
    match jLookup fs k with
    | some v => .ok v
    | none => .error .keyError
  | _ => .error .typeError

/-- Python `''.join(parts)`: concatenates, `TypeError` on a non-`str` part. -/
def pyJoinStr (parts : List JValue) : Except PyErr String :=
  match parts with
  | [] => .ok ""
  | .str s :: rest =>
    match pyJoinStr rest with
    | .ok t => .ok (s ++ t)
    | .error e => .error e
  | _ :: _ => .error .typeError

/-- The per-line loop of `LLMClient._parse_streaming_response`: skip empty
lines, skip lines `json.loads` rejects (`JSONDecodeError` is caught and the
loop continues), collect `data['response']` for lines whose decoded value
contains a `'response'` member; a `TypeError` from `in`/indexing escapes.
`jsonLoads` abstracts `json.loads` (`none` = `JSONDecodeError`). -/
def streaming_parts (jsonLoads : String → Option JValue) :
    List String → Except PyErr (List JValue)
  | [] => .ok []
  | line :: rest =>
    if line = "" then streaming_parts jsonLoads rest
    else
      match jsonLoads line with
      | none => streaming_parts jsonLoads rest
      | some data =>
        match pyContains "response" data with
        | .error e => .error e
        | .ok true =>
          match pyGetItem data "response" with
          | .error e => .error e
          | .ok v =>
            match streaming_parts jsonLoads rest with
            | .error e => .error e
            | .ok parts => .ok (v :: parts)
        | .ok false => streaming_parts jsonLoads rest

/-- Helper for `pySplitNl`: current chunk accumulated in reverse. -/
def splitNlAux : List Char → List Char → List String
  | [], acc => [String.mk acc.reverse]
  | c :: rest, acc =>
    if c = '\n' then String.mk acc.reverse :: splitNlAux rest []
    else splitNlAux rest (c :: acc)

/-- Python `s.split('\n')`: every chunk between newlines, empties kept
(`"" → [""]`, `"a\n" → ["a", ""]`). -/
def pySplitNl (s : String) : List String := splitNlAux s.data []

/-- The `LLMClient._parse_streaming_response`: strip the body, split into lines,
collect the incremental `'response'` values, join them into one string. -/
def parse_streaming_response (jsonLoads : String → Option JValue)
    (response_text : String) : Except PyErr String :=
  let lines := pySplitNl (pyStrip response_text)
  match streaming_parts jsonLoads lines with
  | .error e => .error e
  | .ok parts => pyJoinStr parts

/-- Outcome of the `GET {base_url}/api/tags` call made by `health_check`:
a transport failure, or a response with a status code and a body
(`none` = body that `response.json()` cannot decode). -/
inductive HttpResult where
  | transportError
  | response (status : Nat) (body : Option JValue)

/-- Python `for x in d`: list elements; characters (as 1-char strings) of a
string; keys of a dict; `TypeError` otherwise. -/
def pyIter (d : JValue) : Except PyErr (List JValue) :=
  match d with
  | .arr xs => .ok xs
  | .str s => .ok (s.data.map (fun c => .str (String.mk [c])))
  | .obj fs => .ok (fs.map (fun f => .str f.1))
  | _ => .error .typeError

/-- Python `d.get(k, dflt)`: dict lookup with default; `AttributeError` on
any non-dict value (no other JSON-decodable type has a `get` method). -/
def pyDictGet (d : JValue) (k : String) (dflt : JValue) : Except PyErr JValue :=
  match d with
  | .obj fs => .ok ((jLookup fs k).getD dflt)
  | _ => .error .attributeError

/-- The list comprehension `[model.get('name', '') for model in models]`,
evaluated left-to-right, raising at the first element without a `get`. -/
def getNames : List JValue → Except PyErr (List JValue)
  | [] => .ok []
  | m :: rest =>
    match pyDictGet m "name" (.str "") with
    | .error e => .error e
    | .ok v =>
      match getNames rest with
      | .error e => .error e
      | .ok vs => .ok (v :: vs)

/-- Python `target == v` for a string against a decoded JSON value (the
elementwise test of `target in names`): true only for an equal string. -/
def isStrEq (target : String) (v : JValue) : Bool :=
  match v with
  | .str s => s = target
  | _ => false

/-- The `LLMClient.health_check`: `GET /api/tags`, `raise_for_status` (any
non-2xx raises `httpx.HTTPStatusError`), decode JSON, read
`result.get('models', [])`, build `[model.get('name', '') for model in …]`,
test `config.model_name in` that list. Only `httpx.HTTPError` and
`json.JSONDecodeError` are caught (yielding `false`); `AttributeError` /
`TypeError` from an unexpectedly-shaped decoded body escape. -/
def health_check (config : LLMConfig) (res : HttpResult) : Except PyErr Bool :=
  match res with
  | .transportError => .ok false
  | .response status body =>
    if ¬ (200 ≤ status ∧ status ≤ 299) then .ok false
    else
      match body with
      | none => .ok false
      | some result =>
        match pyDictGet result "models" (.arr []) with
        | .error e => .error e
        | .ok modelsVal =>
          match pyIter modelsVal with
          | .error e => .error e
          | .ok models =>
            match getNames models with
            | .error e => .error e
            | .ok names => .ok (names.any (isStrEq config.model_name))

/-- The `LLMMetadata` (`webapp/llm/schemas.py`). -/
structure LLMMetadata where
  model_name : String
  temperature : Rat
  tokens_used : Option Int
  generation_time_ms : Option Int
  prompt_tokens : Option Int
  completion_tokens : Option Int
  deriving DecidableEq, Repr

/-- The `ChatChoice` (`webapp/llm/schemas.py`); `finish_reason` is one of the
literals `"stop" | "length" | "content_filter"` or `None`. -/
structure ChatChoice where
  message : LLMMessage
  finish_reason : Option String
  index : Int
  deriving DecidableEq, Repr

/-- The `ChatResponse` (`webapp/llm/schemas.py`); `id` is the `uuid4` default and
`created` the `utcnow()` default, both abstract parameters at construction. -/
structure ChatResponse where
  id : String
  conversation_id : Option String
  choices : List ChatChoice
  metadata : LLMMetadata
  created : Nat
  deriving DecidableEq, Repr

/-- What a run of `LLMService.process_chat_request` leaves behind: the
returned value or the exception that propagated, the conversation store
(reflecting every append that happened before any exception), and — as an
observation for the proofs — the payload posted to `POST /api/chat`, when the
run reached that call. -/
structure ProcOutcome where
  result : Except PyErr ChatResponse
  store : ConvStore
  sent : Option ChatPayload

/-- The `LLMService.process_chat_request`. Abstract parameters stand for the
environment the code reads: `now` for `start_time` (also used as the clock of
the two appends), `gen_ms` for the computed `generation_time_ms`, `rid` and
`created` for the `ChatResponse` defaults, and `reply` for the text the
gateway's `chat` call returned (the claims treat runs where that remote call
succeeds). The gateway call itself posts `build_chat_payload` with
`kwargs = {temperature: request.temperature, max_tokens: request.max_tokens}`. -/
def process_chat_request (config : LLMConfig) (store : ConvStore)
    (r : ChatRequest) (now : Nat) (gen_ms : Int) (rid : String)
    (created : Nat) (reply : String) : ProcOutcome :=
  let conversation_id := pyOrStr r.conversation_id ("conv_" ++ toString now)
  match add_message_to_conversation store conversation_id .user r.message now with
  | (.error e, store1) => ⟨.error e, store1, none⟩
  | (.ok _, store1) =>
    let history := get_conversation_history store1 conversation_id 10
    let messages :=
      match r.system_prompt with
      | some sp => if sp ≠ "" then ("system", sp) :: history else history
      | none => history
    let payload := build_chat_payload config messages (some r.temperature)
      (some r.max_tokens)
    match add_message_to_conversation store1 conversation_id .assistant reply now with
    | (.error e, store2) => ⟨.error e, store2, some payload⟩
    | (.ok _, store2) =>
      match mkLLMMessage .assistant reply now with
      | .error e => ⟨.error e, store2, some payload⟩
      | .ok assistant_message =>
        ⟨.ok { id := rid, conversation_id := some conversation_id,
               choices := [{ message := assistant_message,
                             finish_reason := some "stop", index := 0 }],
               metadata := { model_name := config.model_name,
                             temperature := pyOrRat r.temperature config.temperature,
                             tokens_used := none,
                             generation_time_ms := some gen_ms,
                             prompt_tokens := none,
                             completion_tokens := none },
               created := created },
          store2, some payload⟩

/-- The `ChatMessage` (`webapp/schemas.py`), the legacy message shape. -/
structure LegacyChatMessage where
  role : String
  content : String
  deriving DecidableEq, Repr

/-- The `ChatResponse` (`webapp/schemas.py`), the legacy response shape. -/
structure LegacyChatResponse where
  id : String
  model : String
  choices : List LegacyChatMessage
  deriving DecidableEq, Repr

/-- The body of the `POST /chat/legacy` route (`webapp/api/routes.py`):
synthesize `"Echo: "` + the untrimmed message as a single assistant choice
with the fixed model tag. `h` stands for Python's (salted, unspecified)
`hash(req.message)`. -/
def chat_legacy (message : String) (h : Nat) : LegacyChatResponse :=
  { id := "legacy-" ++ toString (h % 100000),
    model := "demo-echo-1",
    choices := [{ role := "assistant", content := "Echo: " ++ message }] }

/-- The legacy route seen together with the process state: its body never
references the conversation manager or the LLM client, so the route is a pure
function of the message that returns the store untouched. -/
def chat_legacy_route (store : ConvStore) (message : String) (h : Nat) :
    LegacyChatResponse × ConvStore :=
  (chat_legacy message h, store)

/-- Concatenation of a list of strings, in order. -/
def concatStrings : List String → String
  | [] => ""
  | s :: rest => s ++ concatStrings rest

/-- The messages of the conversation currently stored under an id
(`[]` when the id is unknown). -/
def storedMessages (store : ConvStore) (conversation_id : String) :
    List LLMMessage :=
  match store conversation_id with
  | some conv => conv.messages
  | none => []

/-- The context window `process_chat_request` assembles for the gateway call:
the last 10 stored messages after the user append, with the system prompt
prepended when truthy. -/
def assembled_window (store : ConvStore) (r : ChatRequest) (now : Nat) :
    List (String × String) :=
  let cid := pyOrStr r.conversation_id ("conv_" ++ toString now)
  let store1 := (add_message_to_conversation store cid .user r.message now).2
  let history := get_conversation_history store1 cid 10
  match r.system_prompt with
  | some sp => if sp ≠ "" then ("system", sp) :: history else history
  | none => history

/-! ## Support lemmas -/

theorem dropWhile_eq_self_of_prefix {p : Char → Bool} {t m : List Char}
    (hpre : t <+: m) (hm : m.dropWhile p = m) : t.dropWhile p = t := by
  rcases t with _ | ⟨a, t'⟩
  · rfl
  · rw [List.dropWhile_eq_self_iff] at hm ⊢
    intro h
    obtain ⟨rest, rfl⟩ := hpre
    have h' : 0 < ((a :: t') ++ rest).length := by simp
    have := hm h'
    simpa using this

theorem stripChars_eq_rdropWhile (l : List Char) :
    stripChars l = (l.dropWhile pyIsSpace).rdropWhile pyIsSpace := rfl

theorem stripChars_idempotent (l : List Char) :
    stripChars (stripChars l) = stripChars l := by
  have h1 : (l.dropWhile pyIsSpace).dropWhile pyIsSpace = l.dropWhile pyIsSpace :=
    List.dropWhile_idempotent _ _
  have hpre : (l.dropWhile pyIsSpace).rdropWhile pyIsSpace <+: l.dropWhile pyIsSpace :=
    List.rdropWhile_prefix _ _
  have h2 := dropWhile_eq_self_of_prefix hpre h1
  rw [stripChars_eq_rdropWhile, stripChars_eq_rdropWhile, h2,
    List.rdropWhile_idempotent]

theorem pyStrip_idempotent (s : String) : pyStrip (pyStrip s) = pyStrip s := by
  show String.mk (stripChars (String.mk (stripChars s.data)).data) = _
  rw [show (String.mk (stripChars s.data)).data = stripChars s.data from rfl,
    stripChars_idempotent]
  rfl

theorem pyStrip_nonempty_length {s : String} (h : pyStrip s ≠ "") :
    ¬ s.length < 1 := by
  intro hl
  apply h
  have hdata : s.data = [] := List.length_eq_zero.mp (by
    have hsl : s.length = s.data.length := rfl
    omega)
  have hs : s = "" := by
    cases s with
    | mk data =>
      have hd : data = [] := hdata
      subst hd
      rfl
  rw [hs]
  rfl

theorem mkLLMMessage_blank (role : MessageRole) (content : String) (now : Nat)
    (h : pyStrip content = "") :
    mkLLMMessage role content now = .error .validationError := by
  unfold mkLLMMessage
  rcases Decidable.em (content.length < 1) with h1 | h1
  · rw [if_pos h1]
  · rw [if_neg h1, if_pos h]

theorem mkLLMMessage_ok (role : MessageRole) (content : String) (now : Nat)
    (h : pyStrip content ≠ "") :
    mkLLMMessage role content now = .ok ⟨role, pyStrip content, now⟩ := by
  unfold mkLLMMessage
  rw [if_neg (pyStrip_nonempty_length h), if_neg h]

theorem add_message_eq (store : ConvStore) (cid : String) (role : MessageRole)
    (content : String) (now : Nat) (h : pyStrip content ≠ "") :
    add_message_to_conversation store cid role content now =
      (.ok (), fun x => if x = cid then
          some ((get_or_create_conversation store cid now).1.add_message
            ⟨role, pyStrip content, now⟩ now)
        else (get_or_create_conversation store cid now).2 x) := by
  unfold add_message_to_conversation
  rw [mkLLMMessage_ok role content now h]

/-! ## Claim C6 -/

/-- C6: constructing a `Message` with content `s` fails with a validation
error exactly when `s` is empty after trimming; on success the stored content
is the trimmed form of `s`, hence has non-empty trimmed content. -/
theorem claim_C6_message_content_validation (role : MessageRole) (s : String)
    (t : Nat) :
    ((∃ e, mkLLMMessage role s t = .error e) ↔ pyStrip s = "") ∧
    (pyStrip s ≠ "" →
      mkLLMMessage role s t = .ok ⟨role, pyStrip s, t⟩ ∧
      pyStrip (pyStrip s) ≠ "") := by
  constructor
  · constructor
    · rintro ⟨e, he⟩
      by_contra hne
      rw [mkLLMMessage_ok role s t hne] at he
      exact Except.noConfusion he
    · intro hs
      exact ⟨.validationError, mkLLMMessage_blank role s t hs⟩
  · intro hs
    exact ⟨mkLLMMessage_ok role s t hs, by rw [pyStrip_idempotent]; exact hs⟩

/-- Witness for C6 at a concrete whitespace-padded input. -/
theorem claim_C6_witness :
    pyStrip "  hi " ≠ "" ∧
    (mkLLMMessage .user "  hi " 0 = .ok ⟨.user, pyStrip "  hi ", 0⟩ ∧
     pyStrip (pyStrip "  hi ") ≠ "") :=
  ⟨by decide, (claim_C6_message_content_validation .user "  hi " 0).2 (by decide)⟩

/-! ## Claim C9 -/

/-- C9: the legacy echo route produces exactly one assistant choice whose
content is `"Echo: "` plus the untrimmed original message, with the fixed demo
model tag, and it neither reads nor writes the conversation store (its result
is a function of the message alone and the store comes back unchanged). -/
theorem claim_C9_legacy_echo (store : ConvStore) (message : String) (h : Nat) :
    (chat_legacy_route store message h).1.choices =
      [{ role := "assistant", content := "Echo: " ++ message }] ∧
    (chat_legacy_route store message h).1.model = "demo-echo-1" ∧
    (chat_legacy_route store message h).2 = store ∧
    (chat_legacy_route store message h).1 = chat_legacy message h :=
  ⟨rfl, rfl, rfl, rfl⟩

/-! ## Claim C10 -/

/-- C10: appending blank content under an unknown conversation id raises the
validation error, yet the store has been modified: a fresh empty
`ConversationContext` for that id exists afterwards, because the conversation
entry is created before the content is validated. -/
theorem claim_C10_nonatomic_append (store : ConvStore) (c : String)
    (role : MessageRole) (content : String) (now : Nat)
    (hunknown : store c = none) (hblank : pyStrip content = "") :
    (add_message_to_conversation store c role content now).1 =
      .error .validationError ∧
    (add_message_to_conversation store c role content now).2 c =
      some { conversation_id := c, messages := [], created_at := now,
             updated_at := now, metadata := [] } := by
  unfold add_message_to_conversation
  rw [mkLLMMessage_blank role content now hblank]
  unfold get_or_create_conversation
  rw [hunknown]
  exact ⟨rfl, by simp⟩

/-- Witness for C10 at a concrete blank append on an empty store. -/
theorem claim_C10_witness :
    ConvStore.empty "c" = none ∧ pyStrip "  " = "" ∧
    ((add_message_to_conversation ConvStore.empty "c" .user "  " 7).1 =
        .error .validationError ∧
     (add_message_to_conversation ConvStore.empty "c" .user "  " 7).2 "c" =
        some { conversation_id := "c", messages := [], created_at := 7,
               updated_at := 7, metadata := [] }) :=
  ⟨rfl, rfl, claim_C10_nonatomic_append ConvStore.empty "c" .user "  " 7 rfl rfl⟩

/-! ## Claim C2 -/

/-- A sample stored conversation for concrete instances. -/
def sampleConv : ConversationContext :=
  { conversation_id := "c",
    messages := [⟨.user, "a", 1⟩, ⟨.assistant, "b", 2⟩, ⟨.user, "d", 3⟩],
    created_at := 1, updated_at := 3, metadata := [] }

/-- A store holding exactly `sampleConv` under `"c"`. -/
def sampleStore : ConvStore := fun x => if x = "c" then some sampleConv else none

/-- C2 counterexample: `history` with `limit = -1` on a known 3-message
conversation returns 2 messages, not the full history the claim promises for
`limit <= 0` (Python `xs[-limit:]` drops leading elements for negative
`limit`). -/
theorem claim_C2_counterexample :
    sampleStore "c" = some sampleConv ∧
    sampleConv.to_llm_format.length = 3 ∧
    (get_conversation_history sampleStore "c" (-1)).length = 2 ∧
    get_conversation_history sampleStore "c" (-1) ≠ sampleConv.to_llm_format :=
  ⟨rfl, rfl, rfl, by decide⟩

/-- C2 amended: unknown ids yield `[]` (and the read touches no state);
`limit > 0` yields exactly the last `min(limit, total)` messages in
chronological order; `limit = 0` yields the full history; but `limit < 0`
yields the history with the first `min(-limit, total)` messages dropped
rather than the full history. -/
theorem claim_C2_amended (store : ConvStore) (c : String) (limit : Int) :
    (store c = none → get_conversation_history store c limit = []) ∧
    (∀ conv, store c = some conv →
      ((0 < limit →
        get_conversation_history store c limit =
          conv.to_llm_format.drop (conv.to_llm_format.length - limit.toNat) ∧
        (get_conversation_history store c limit).length =
          min limit.toNat conv.to_llm_format.length) ∧
       (limit = 0 → get_conversation_history store c limit = conv.to_llm_format) ∧
       (limit < 0 →
        get_conversation_history store c limit =
          conv.to_llm_format.drop (-limit).toNat))) := by
  constructor
  · intro h
    unfold get_conversation_history
    rw [h]
  · intro conv h
    unfold get_conversation_history pySliceFrom
    simp only [h]
    refine ⟨?_, ?_, ?_⟩
    · intro hpos
      have hneg : (-limit : Int) < 0 := by omega
      rw [if_pos hneg]
      constructor
      · congr 1
        omega
      · rw [List.length_drop]
        omega
    · intro h0
      subst h0
      simp
    · intro hneg
      rw [if_neg (by omega : ¬ ((-limit : Int) < 0))]

/-- Witness for C2 at a concrete store and a positive limit. -/
theorem claim_C2_witness :
    get_conversation_history sampleStore "c" 2 =
      sampleConv.to_llm_format.drop
        (sampleConv.to_llm_format.length - (2 : Int).toNat) ∧
    (get_conversation_history sampleStore "c" 2).length =
      min (2 : Int).toNat sampleConv.to_llm_format.length :=
  ((claim_C2_amended sampleStore "c" 2).2 sampleConv rfl).1 (by decide)

/-! ## Claim C3 -/

/-- A client configuration with a maximum-token bound configured as zero. -/
def zeroLimitConfig : LLMConfig :=
  { base_url := "http://localhost:11434", model_name := "gpt-oss:latest",
    timeout := 300, max_tokens := some 0, temperature := 7/10 }

/-- C3 counterexample: with a configured maximum-token bound of zero, both
payload builders omit `num_predict` entirely (`if self.config.max_tokens:` is
Python truthiness, and `0` is falsy) — zero is not attached as the claim
states. -/
theorem claim_C3_counterexample :
    zeroLimitConfig.max_tokens = some 0 ∧
    jLookup (build_chat_payload zeroLimitConfig [] none none).options
      "num_predict" = none ∧
    jLookup (build_payload zeroLimitConfig "p" none none).options
      "num_predict" = none :=
  ⟨rfl, rfl, rfl⟩

/-- C3 amended: every generate/chat payload's options carry a `temperature`
key; `num_predict` is present exactly when the configured maximum-token bound
is truthy (non-`None` and nonzero) — a configured limit of zero behaves like
no limit at all. -/
theorem claim_C3_amended (config : LLMConfig) (messages : List (String × String))
    (prompt : String) (system_prompt : Option String)
    (ktc ktg : Kw (Option Rat)) (km : Kw (Option Int)) :
    ((jLookup (build_chat_payload config messages ktc km).options
        "temperature").isSome = true ∧
     (jLookup (build_payload config prompt system_prompt ktg).options
        "temperature").isSome = true) ∧
    (((jLookup (build_chat_payload config messages ktc km).options
        "num_predict").isSome = true ↔ pyTruthyOptInt config.max_tokens = true) ∧
     ((jLookup (build_payload config prompt system_prompt ktg).options
        "num_predict").isSome = true ↔ pyTruthyOptInt config.max_tokens = true)) := by
  have hne : ("temperature" : String) ≠ "num_predict" := by decide
  cases h : pyTruthyOptInt config.max_tokens <;>
    simp [build_chat_payload, build_payload, jLookup, h, List.find?, hne]

/-! ## Claim C7 -/

theorem getNames_ok_any {xs names : List JValue} {target : String}
    (hg : getNames xs = .ok names)
    (ha : names.any (isStrEq target) = true) :
    ∃ x ∈ xs, ∃ fsx, x = .obj fsx ∧
      (jLookup fsx "name").getD (.str "") = .str target := by
  induction xs generalizing names with
  | nil =>
    unfold getNames at hg
    cases hg
    simp at ha
  | cons m rest ih =>
    unfold getNames at hg
    cases m <;> simp only [pyDictGet] at hg <;> try exact Except.noConfusion hg
    case obj fsm =>
      cases hr : getNames rest with
      | error e => rw [hr] at hg; exact Except.noConfusion hg
      | ok vs =>
        rw [hr] at hg
        cases hg
        rw [List.any_cons, Bool.or_eq_true] at ha
        rcases ha with hhd | htl
        · refine ⟨.obj fsm, List.mem_cons_self _ _, fsm, rfl, ?_⟩
          unfold isStrEq at hhd
          cases hv : (jLookup fsm "name").getD (.str "") <;> rw [hv] at hhd <;>
            simp_all
        · obtain ⟨x, hx, hrest⟩ := ih hr htl
          exact ⟨x, List.mem_cons_of_mem _ hx, hrest⟩

/-- C7 counterexample: a 200 response whose body decodes to a JSON array (a
decodable response "not of the expected shape") makes `health_check` raise
`AttributeError` (`result.get` on a list) instead of returning `false`. -/
theorem claim_C7_counterexample :
    health_check zeroLimitConfig (.response 200 (some (.arr [.num 1]))) =
      .error .attributeError := rfl

/-- C7 amended: `health_check` returns `false` on transport errors, non-2xx
statuses, and undecodable bodies; but a decodable body of unexpected shape
can raise (only `httpx.HTTPError` and `JSONDecodeError` are caught). When it
returns `true`, the body was a 2xx JSON object whose `models` list holds an
entry whose `name` is the configured model name. -/
theorem claim_C7_amended (config : LLMConfig) (res : HttpResult) :
    (health_check config .transportError = .ok false) ∧
    (∀ status body, ¬ (200 ≤ status ∧ status ≤ 299) →
      health_check config (.response status body) = .ok false) ∧
    (∀ status, health_check config (.response status none) = .ok false) ∧
    (health_check config res = .ok true →
      ∃ status fields xs, res = .response status (some (.obj fields)) ∧
        (200 ≤ status ∧ status ≤ 299) ∧
        jLookup fields "models" = some (.arr xs) ∧
        ∃ x ∈ xs, ∃ fsx, x = .obj fsx ∧
          (jLookup fsx "name").getD (.str "") = .str config.model_name) := by
  refine ⟨rfl, ?_, ?_, ?_⟩
  · intro status body hst
    simp only [health_check]
    rw [if_pos hst]
  · intro status
    simp only [health_check]
    rcases Decidable.em (¬ (200 ≤ status ∧ status ≤ 299)) with hst | hst
    · rw [if_pos hst]
    · rw [if_neg hst]
  · intro h
    cases res with
    | transportError => exact absurd h (by simp [health_check])
    | response status body =>
      simp only [health_check] at h
      rcases Decidable.em (¬ (200 ≤ status ∧ status ≤ 299)) with hst | hst
      · rw [if_pos hst] at h
        exact absurd h (by simp)
      · rw [if_neg hst] at h
        have hst' : 200 ≤ status ∧ status ≤ 299 := not_not.mp hst
        cases body with
        | none => exact absurd h (by simp)
        | some result =>
          cases result <;> simp only [pyDictGet] at h <;>
            try exact Except.noConfusion h
          case obj fields =>
            cases hl : jLookup fields "models" with
            | none =>
              rw [hl] at h
              simp only [Option.getD, pyIter, getNames] at h
              exact absurd h (by simp)
            | some v =>
              rw [hl] at h
              cases v <;> simp only [Option.getD, pyIter] at h <;>
                try exact Except.noConfusion h
              case arr xs =>
                cases hg : getNames xs with
                | error e => rw [hg] at h; exact Except.noConfusion h
                | ok names =>
                  rw [hg] at h
                  have ha : names.any (isStrEq config.model_name) = true := by
                    simpa using h
                  exact ⟨status, fields, xs, rfl, hst', hl,
                    getNames_ok_any hg ha⟩
              case str s =>
                cases hd : s.data with
                | nil =>
                  rw [hd] at h
                  simp only [List.map, getNames] at h
                  exact absurd h (by simp)
                | cons a l =>
                  rw [hd] at h
                  simp only [List.map, getNames, pyDictGet] at h
                  exact Except.noConfusion h
              case obj fs2 =>
                cases fs2 with
                | nil =>
                  simp only [List.map, getNames] at h
                  exact absurd h (by simp)
                | cons f rest =>
                  simp only [List.map, getNames, pyDictGet] at h
                  exact Except.noConfusion h

/-- Witness for C7: a reachable unhealthy endpoint yields `false`; a healthy
listing containing the configured model yields `true`, and the amended
theorem recovers the listed entry. -/
theorem claim_C7_witness :
    (health_check zeroLimitConfig .transportError = .ok false) ∧
    (health_check zeroLimitConfig (.response 404 none) = .ok false) ∧
    (∃ status fields xs,
      (HttpResult.response 200 (some (.obj [("models",
        .arr [.obj [("name", .str "gpt-oss:latest")]])]))) =
          .response status (some (.obj fields)) ∧
      (200 ≤ status ∧ status ≤ 299) ∧
      jLookup fields "models" = some (.arr xs) ∧
      ∃ x ∈ xs, ∃ fsx, x = .obj fsx ∧
        (jLookup fsx "name").getD (.str "") =
          .str zeroLimitConfig.model_name) := by
  refine ⟨(claim_C7_amended zeroLimitConfig .transportError).1,
    (claim_C7_amended zeroLimitConfig .transportError).2.1 404 none (by omega),
    (claim_C7_amended zeroLimitConfig (.response 200 (some (.obj [("models",
      .arr [.obj [("name", .str "gpt-oss:latest")]])])))).2.2.2 rfl⟩

/-! ## Claim C8 -/

/-- A streamed line is well-shaped when it is undecodable (the parser skips
it) or decodes to a JSON object whose `response` member, if any, is text. -/
def goodStreamLine (jsonLoads : String → Option JValue) (line : String) : Bool :=
  match jsonLoads line with
  | none => true
  | some (.obj fs) =>
    match jLookup fs "response" with
    | none => true
    | some (.str _) => true
    | some _ => false
  | some _ => false

/-- The incremental text (`response`) fields of the payload's lines, in
arrival order. -/
def lineResponses (jsonLoads : String → Option JValue)
    (lines : List String) : List String :=
  lines.filterMap (fun line =>
    if line = "" then none
    else match jsonLoads line with
      | some (.obj fs) =>
        match jLookup fs "response" with
        | some (.str s) => some s
        | _ => none
      | _ => none)

theorem any_key_eq_jLookup_isSome (fs : List (String × JValue)) (k : String) :
    fs.any (fun f => f.1 = k) = (jLookup fs k).isSome := by
  unfold jLookup
  induction fs with
  | nil => rfl
  | cons f rest ih =>
    by_cases h : f.1 = k <;> simp [List.find?_cons, List.any_cons, h, ih]

theorem streaming_parts_good (jsonLoads : String → Option JValue)
    (lines : List String)
    (h : ∀ line ∈ lines, goodStreamLine jsonLoads line = true) :
    streaming_parts jsonLoads lines =
      .ok ((lineResponses jsonLoads lines).map JValue.str) := by
  induction lines with
  | nil => rfl
  | cons line rest ih =>
    have hline := h line (List.mem_cons_self _ _)
    have hrest := ih (fun l hl => h l (List.mem_cons_of_mem _ hl))
    by_cases he : line = ""
    · simp only [streaming_parts, lineResponses, List.filterMap_cons, he,
        if_pos rfl, ite_true]
      exact hrest
    · simp only [streaming_parts, lineResponses, List.filterMap_cons, if_neg he]
      cases hj : jsonLoads line with
      | none =>
        simp only [goodStreamLine, hj] at hline ⊢
        exact hrest
      | some data =>
        cases data with
        | null => simp [goodStreamLine, hj] at hline
        | bool b => simp [goodStreamLine, hj] at hline
        | num q => simp [goodStreamLine, hj] at hline
        | str s => simp [goodStreamLine, hj] at hline
        | arr xs => simp [goodStreamLine, hj] at hline
        | obj fs =>
          simp only [goodStreamLine, hj] at hline
          simp only [hj, pyContains, any_key_eq_jLookup_isSome]
          cases hk : jLookup fs "response" with
          | none =>
            simp only [hk, Option.isSome_none]
            exact hrest
          | some v =>
            rw [hk] at hline
            cases v with
            | null => simp at hline
            | bool b => simp at hline
            | num q => simp at hline
            | arr xs => simp at hline
            | obj fs2 => simp at hline
            | str s =>
              simp only [hk, Option.isSome_some, pyGetItem, hrest]
              simp [hk]
              rfl

theorem pyJoinStr_map (ss : List String) :
    pyJoinStr (ss.map JValue.str) = .ok (concatStrings ss) := by
  induction ss with
  | nil => rfl
  | cons s rest ih => simp [pyJoinStr, concatStrings, ih]

/-- C8: for a well-shaped streamed line-delimited payload, the parser returns
exactly the concatenation, in arrival (line) order, of the per-line
incremental `response` text fields. -/
theorem claim_C8_streaming_concatenation (jsonLoads : String → Option JValue)
    (response_text : String)
    (hgood : ∀ line ∈ pySplitNl (pyStrip response_text),
      goodStreamLine jsonLoads line = true) :
    parse_streaming_response jsonLoads response_text =
      .ok (concatStrings
        (lineResponses jsonLoads (pySplitNl (pyStrip response_text)))) := by
  simp only [parse_streaming_response]
  rw [streaming_parts_good jsonLoads _ hgood]
  exact pyJoinStr_map _

/-- A concrete two-line streamed payload decoder. -/
def wLoads : String → Option JValue := fun line =>
  if line = "l1" then some (.obj [("response", .str "Hel")])
  else if line = "l2" then some (.obj [("done", .bool true), ("response", .str "lo")])
  else none

/-- Witness for C8 on a concrete two-line payload. -/
theorem claim_C8_witness :
    (∀ line ∈ pySplitNl (pyStrip "l1\nl2"), goodStreamLine wLoads line = true) ∧
    parse_streaming_response wLoads "l1\nl2" =
      .ok (concatStrings (lineResponses wLoads (pySplitNl (pyStrip "l1\nl2")))) :=
  ⟨by decide, claim_C8_streaming_concatenation wLoads "l1\nl2" (by decide)⟩

/-! ## The chat orchestrator: claims C1, C4, C5 -/

theorem valid_message_strip {r : ChatRequest} (h : r.Valid) :
    pyStrip r.message = r.message ∧ pyStrip r.message ≠ "" := by
  unfold ChatRequest.Valid mkChatRequest at h
  by_cases h1 : r.message.length < 1
  · rw [if_pos h1] at h
    exact absurd h (by simp)
  · rw [if_neg h1] at h
    by_cases h2 : pyStrip r.message = ""
    · rw [if_pos h2] at h
      exact absurd h (by simp)
    · rw [if_neg h2] at h
      split at h
      · exact absurd h (by simp)
      · split at h
        · exact absurd h (by simp)
        · injection h with h5
          exact ⟨congrArg ChatRequest.message h5, h2⟩

/-- The full outcome of a successful `process_chat_request` run (both appends
succeed and the gateway reply is `reply`). -/
theorem process_ok_eq (config : LLMConfig) (store : ConvStore) (r : ChatRequest)
    (now : Nat) (gen_ms : Int) (rid : String) (created : Nat) (reply : String)
    (hmsg : pyStrip r.message ≠ "") (hreply : pyStrip reply ≠ "") :
    process_chat_request config store r now gen_ms rid created reply =
      { result := .ok
          { id := rid,
            conversation_id :=
              some (pyOrStr r.conversation_id ("conv_" ++ toString now)),
            choices := [{ message := ⟨.assistant, pyStrip reply, now⟩,
                          finish_reason := some "stop", index := 0 }],
            metadata := { model_name := config.model_name,
                          temperature := pyOrRat r.temperature config.temperature,
                          tokens_used := none,
                          generation_time_ms := some gen_ms,
                          prompt_tokens := none, completion_tokens := none },
            created := created },
        store := (add_message_to_conversation
            (add_message_to_conversation store
              (pyOrStr r.conversation_id ("conv_" ++ toString now))
              .user r.message now).2
            (pyOrStr r.conversation_id ("conv_" ++ toString now))
            .assistant reply now).2,
        sent := some (build_chat_payload config (assembled_window store r now)
            (some r.temperature) (some r.max_tokens)) } := by
  unfold process_chat_request assembled_window
  simp only [add_message_eq _ _ _ _ _ hmsg, add_message_eq _ _ _ _ _ hreply,
    mkLLMMessage_ok _ _ _ hreply]

/-- A reference client configuration (no maximum-token bound). -/
def testConfig : LLMConfig :=
  { base_url := "http://localhost:11434", model_name := "gpt-oss:latest",
    timeout := 300, max_tokens := none, temperature := 1 }

/-- A valid request whose conversation_id is present but empty. -/
def emptyIdRequest : ChatRequest :=
  { message := "hi", conversation_id := some "", system_prompt := none,
    temperature := some 1, max_tokens := none }

/-- C1 counterexample: a valid request carrying the (present) conversation id
`""` yields a response whose conversation_id is the synthesized time-derived
one, not the request's id — Python's `request.conversation_id or …` treats the
present-but-empty id as absent. -/
theorem claim_C1_counterexample :
    emptyIdRequest.Valid ∧
    pyStrip "ok" ≠ "" ∧
    (process_chat_request testConfig ConvStore.empty emptyIdRequest
        5 0 "rid" 6 "ok").result.map (fun resp => resp.conversation_id) =
      .ok (some "conv_5") ∧
    some "conv_5" ≠ emptyIdRequest.conversation_id := by
  refine ⟨by decide, by decide, ?_, by decide⟩
  rw [process_ok_eq testConfig ConvStore.empty emptyIdRequest 5 0 "rid" 6 "ok"
    (by decide) (by decide)]
  rfl

/-- C1 amended: for every valid request, if the gateway call and both appends
succeed, the response has exactly one choice, with an assistant message and
finish_reason `"stop"`, and its conversation_id is the resolved one — the
request's id when present *and non-empty* (Python truthiness), else the
synthesized time-derived `conv_<timestamp>`. -/
theorem claim_C1_amended (config : LLMConfig) (store : ConvStore)
    (r : ChatRequest) (now : Nat) (gen_ms : Int) (rid : String) (created : Nat)
    (reply : String) (hvalid : r.Valid) (hreply : pyStrip reply ≠ "") :
    ∃ resp, (process_chat_request config store r now gen_ms rid created
        reply).result = .ok resp ∧
      resp.choices.length = 1 ∧
      (∀ ch ∈ resp.choices,
        ch.message.role = .assistant ∧ ch.finish_reason = some "stop") ∧
      resp.conversation_id =
        some (pyOrStr r.conversation_id ("conv_" ++ toString now)) := by
  obtain ⟨hm1, hm2⟩ := valid_message_strip hvalid
  rw [process_ok_eq config store r now gen_ms rid created reply hm2 hreply]
  refine ⟨_, rfl, rfl, ?_, rfl⟩
  intro ch hch
  rw [List.mem_singleton] at hch
  subst hch
  exact ⟨rfl, rfl⟩

/-- A plainly valid request with a non-empty conversation id. -/
def validRequest : ChatRequest :=
  { message := "hi", conversation_id := some "abc", system_prompt := none,
    temperature := some 1, max_tokens := none }

/-- Witness for C1 on a concrete valid request and reply. -/
theorem claim_C1_witness :
    validRequest.Valid ∧ pyStrip "ok" ≠ "" ∧
    ∃ resp, (process_chat_request testConfig ConvStore.empty validRequest
        5 0 "rid" 6 "ok").result = .ok resp ∧
      resp.choices.length = 1 ∧
      (∀ ch ∈ resp.choices,
        ch.message.role = .assistant ∧ ch.finish_reason = some "stop") ∧
      resp.conversation_id =
        some (pyOrStr validRequest.conversation_id ("conv_" ++ toString 5)) :=
  ⟨by decide, by decide,
    claim_C1_amended testConfig ConvStore.empty validRequest 5 0 "rid" 6 "ok"
      (by decide) (by decide)⟩

/-- A valid request that asks for a maximum of 100 tokens. -/
def maxTokReq : ChatRequest :=
  { message := "hi", conversation_id := some "abc", system_prompt := none,
    temperature := some 1, max_tokens := some 100 }

/-- C4 counterexample: a valid request with `max_tokens = 100` processed under
a configuration with no maximum-token bound sends a chat payload with no
`num_predict` option at all — the request's `max_tokens` is forwarded to
`chat(**kwargs)` but `_build_chat_payload` never reads it. -/
theorem claim_C4_counterexample :
    maxTokReq.Valid ∧
    maxTokReq.max_tokens = some 100 ∧
    testConfig.max_tokens = none ∧
    (process_chat_request testConfig ConvStore.empty maxTokReq
        5 0 "rid" 6 "ok").sent.map (fun p => jLookup p.options "num_predict") =
      some none := by
  refine ⟨by decide, rfl, rfl, ?_⟩
  rw [process_ok_eq testConfig ConvStore.empty maxTokReq 5 0 "rid" 6 "ok"
    (by decide) (by decide)]
  rfl

/-- C4 amended: the gateway chat call is made with the assembled context
window; its `temperature` option is the request's temperature value passed
through verbatim (an explicit `None` rides along as JSON null; the config
default would apply only if the keyword were absent, which the service never
does), and `num_predict` is governed solely by the *configured* maximum-token
bound — the request's `max_tokens` is ignored. -/
theorem claim_C4_amended (config : LLMConfig) (store : ConvStore)
    (r : ChatRequest) (now : Nat) (gen_ms : Int) (rid : String) (created : Nat)
    (reply : String) (hvalid : r.Valid) (hreply : pyStrip reply ≠ "") :
    ∃ p, (process_chat_request config store r now gen_ms rid created
        reply).sent = some p ∧
      p.messages = assembled_window store r now ∧
      jLookup p.options "temperature" = some (jOfOptRat r.temperature) ∧
      ((jLookup p.options "num_predict").isSome = true ↔
        pyTruthyOptInt config.max_tokens = true) := by
  obtain ⟨hm1, hm2⟩ := valid_message_strip hvalid
  rw [process_ok_eq config store r now gen_ms rid created reply hm2 hreply]
  have hne : ("temperature" : String) ≠ "num_predict" := by decide
  refine ⟨_, rfl, rfl, ?_, ?_⟩
  · cases htr : pyTruthyOptInt config.max_tokens <;>
      simp [build_chat_payload, jLookup, htr, List.find?]
  · cases htr : pyTruthyOptInt config.max_tokens <;>
      simp [build_chat_payload, jLookup, htr, List.find?, hne]

/-- Witness for C4 on a concrete valid request and reply. -/
theorem claim_C4_witness :
    maxTokReq.Valid ∧ pyStrip "ok" ≠ "" ∧
    ∃ p, (process_chat_request testConfig ConvStore.empty maxTokReq
        5 0 "rid" 6 "ok").sent = some p ∧
      p.messages = assembled_window ConvStore.empty maxTokReq 5 ∧
      jLookup p.options "temperature" = some (jOfOptRat maxTokReq.temperature) ∧
      ((jLookup p.options "num_predict").isSome = true ↔
        pyTruthyOptInt testConfig.max_tokens = true) :=
  ⟨by decide, by decide,
    claim_C4_amended testConfig ConvStore.empty maxTokReq 5 0 "rid" 6 "ok"
      (by decide) (by decide)⟩

/-- C5: the system prompt is prepended (at position 0) only to the context
window of the gateway call; the store afterwards holds exactly the prior
messages plus one user message (the request's message) and one assistant
message (the trimmed reply) — no system message is persisted. -/
theorem claim_C5_system_prompt_not_persisted (config : LLMConfig)
    (store : ConvStore) (r : ChatRequest) (now : Nat) (gen_ms : Int)
    (rid : String) (created : Nat) (reply : String) (sp : String)
    (hvalid : r.Valid) (hsp : r.system_prompt = some sp) (hspne : sp ≠ "")
    (hreply : pyStrip reply ≠ "") :
    (∃ resp, (process_chat_request config store r now gen_ms rid created
        reply).result = .ok resp) ∧
    (process_chat_request config store r now gen_ms rid created reply).sent =
      some (build_chat_payload config
        (("system", sp) :: get_conversation_history
          (add_message_to_conversation store
            (pyOrStr r.conversation_id ("conv_" ++ toString now))
            .user r.message now).2
          (pyOrStr r.conversation_id ("conv_" ++ toString now)) 10)
        (some r.temperature) (some r.max_tokens)) ∧
    ∃ conv2, (process_chat_request config store r now gen_ms rid created
        reply).store (pyOrStr r.conversation_id ("conv_" ++ toString now)) =
          some conv2 ∧
      conv2.messages.map (fun m => (m.role, m.content)) =
        (storedMessages store
            (pyOrStr r.conversation_id ("conv_" ++ toString now))).map
          (fun m => (m.role, m.content)) ++
        [(.user, r.message), (.assistant, pyStrip reply)] := by
  obtain ⟨hm1, hm2⟩ := valid_message_strip hvalid
  rw [process_ok_eq config store r now gen_ms rid created reply hm2 hreply]
  refine ⟨⟨_, rfl⟩, ?_, ?_⟩
  · simp only [assembled_window, hsp]
    rw [if_pos hspne]
  · simp only [add_message_eq _ _ _ _ _ hm2, add_message_eq _ _ _ _ _ hreply,
      get_or_create_conversation, if_pos rfl]
    refine ⟨_, rfl, ?_⟩
    simp only [ConversationContext.add_message, storedMessages,
      get_or_create_conversation]
    cases hsc : store (pyOrStr r.conversation_id ("conv_" ++ toString now)) <;>
      simp [hm1]

/-- A valid request carrying a system prompt. -/
def sysReq : ChatRequest :=
  { message := "hi", conversation_id := some "abc",
    system_prompt := some "be brief", temperature := some 1,
    max_tokens := none }

/-- Witness for C5 on a concrete request with a system prompt. -/
theorem claim_C5_witness :
    sysReq.Valid ∧ sysReq.system_prompt = some "be brief" ∧
    ("be brief" : String) ≠ "" ∧ pyStrip "ok" ≠ "" ∧
    ((∃ resp, (process_chat_request testConfig ConvStore.empty sysReq
        5 0 "rid" 6 "ok").result = .ok resp) ∧
     (process_chat_request testConfig ConvStore.empty sysReq
        5 0 "rid" 6 "ok").sent =
      some (build_chat_payload testConfig
        (("system", "be brief") :: get_conversation_history
          (add_message_to_conversation ConvStore.empty
            (pyOrStr sysReq.conversation_id ("conv_" ++ toString 5))
            .user sysReq.message 5).2
          (pyOrStr sysReq.conversation_id ("conv_" ++ toString 5)) 10)
        (some sysReq.temperature) (some sysReq.max_tokens)) ∧
     ∃ conv2, (process_chat_request testConfig ConvStore.empty sysReq
        5 0 "rid" 6 "ok").store
          (pyOrStr sysReq.conversation_id ("conv_" ++ toString 5)) =
            some conv2 ∧
      conv2.messages.map (fun m => (m.role, m.content)) =
        (storedMessages ConvStore.empty
            (pyOrStr sysReq.conversation_id ("conv_" ++ toString 5))).map
          (fun m => (m.role, m.content)) ++
        [(.user, sysReq.message), (.assistant, pyStrip "ok")]) :=
  ⟨by decide, rfl, by decide, by decide,
    claim_C5_system_prompt_not_persisted testConfig ConvStore.empty sysReq
      5 0 "rid" 6 "ok" "be brief" (by decide) rfl (by decide) (by decide)⟩

end PydanticDemo
